import Mathlib

/-!
Shallow embedding of the SREC Connect server (`server/routes.ts`, storage
module `MemStorage`) and proofs about the frozen specification claims.

JavaScript `Map` objects are modelled as insertion-ordered association
lists.  `Map.get` returns the value of the (unique) entry with the given
key; `Map.set` overwrites an existing entry in place or appends a new one
at the end — both behaviours are reproduced by `aget`/`aset` below.
`Date` values are modelled as natural numbers, `null`/`undefined` as
`Option.none`, and the ids produced by `randomUUID()` are passed in as
explicit arguments to the operations that create entities.
-/

set_option autoImplicit false

namespace Srec

/-- Lookup in a JS-`Map`-style association list: value of the first entry
whose key matches. -/
def aget {κ α : Type} [DecidableEq κ] : List (κ × α) → κ → Option α
  | [], _ => none
  | (k', v) :: rest, k => if k' = k then some v else aget rest k

/-- JS `Map.set`: replace the value of the first entry with the given key,
keeping its position, or append a fresh entry at the end. -/
def aset {κ α : Type} [DecidableEq κ] : List (κ × α) → κ → α → List (κ × α)
  | [], k, v => [(k, v)]
  | (k', v') :: rest, k, v =>
      if k' = k then (k, v) :: rest else (k', v') :: aset rest k v

/-- The data carried by one user record (`User` in `shared/schema.ts`,
with the `isVerified` flag the verified registration flow adds). -/
structure User where
  id : String
  name : String
  email : String
  password : String
  role : String
  clubs : List String
  avatar : Option String
  createdAt : Nat
  isVerified : Bool
deriving DecidableEq

/-- A club record (`Club` in `shared/schema.ts`). -/
structure Club where
  id : String
  name : String
  description : Option String
  category : String
  adminId : Option String
  members : List String
  createdAt : Nat
deriving DecidableEq

/-- An event record (`Event` in `shared/schema.ts`). -/
structure Event where
  id : String
  title : String
  description : String
  date : Nat
  venue : String
  club : Option String
  type : String
  organizerId : Option String
  organizerName : String
  image : Option String
  attendees : List String
  interested : List String
  createdAt : Nat
deriving DecidableEq

/-- A notification record (`Notification` in `shared/schema.ts`). -/
structure Notification where
  id : String
  userId : Option String
  title : String
  message : String
  type : String
  read : Bool
  eventId : Option String
  createdAt : Nat
deriving DecidableEq

/-- The four maps owned by `MemStorage`. -/
structure Storage where
  users : List (String × User)
  events : List (String × Event)
  clubs : List (String × Club)
  notifications : List (String × Notification)
deriving DecidableEq

/-- `MemStorage.getUser`: `this.users.get(id)`. -/
def getUser (st : Storage) (id : String) : Option User :=
  aget st.users id

/-- `MemStorage.getUserByEmail`: first user value whose `email` matches. -/
def getUserByEmail (st : Storage) (email : String) : Option User :=
  (st.users.map Prod.snd).find? (fun u => u.email == email)

/-- `MemStorage.getEventById`: `this.events.get(id)`. -/
def getEventById (st : Storage) (id : String) : Option Event :=
  aget st.events id

/-- `MemStorage.getClubByName`: first club value whose `name` matches. -/
def getClubByName (st : Storage) (name : String) : Option Club :=
  (st.clubs.map Prod.snd).find? (fun c => c.name == name)

/-- A `Partial<User>` object as accepted by `MemStorage.updateUser`:
each field is either absent or supplies a new value. -/
structure UserPatch where
  id : Option String := none
  name : Option String := none
  email : Option String := none
  password : Option String := none
  role : Option String := none
  clubs : Option (List String) := none
  avatar : Option (Option String) := none
  createdAt : Option Nat := none
  isVerified : Option Bool := none
deriving DecidableEq

/-- The JS spread `{ ...user, ...updates }`: every field present in the
patch overrides the corresponding field of the user — including `id` and
`createdAt`. -/
def applyPatch (u : User) (p : UserPatch) : User :=
  { id := p.id.getD u.id
    name := p.name.getD u.name
    email := p.email.getD u.email
    password := p.password.getD u.password
    role := p.role.getD u.role
    clubs := p.clubs.getD u.clubs
    avatar := p.avatar.getD u.avatar
    createdAt := p.createdAt.getD u.createdAt
    isVerified := p.isVerified.getD u.isVerified }

/-- `MemStorage.updateUser`: look the user up, merge the patch over it with
an object spread, store the result under the same key, and return it;
`undefined` (modelled `none`) when the id is unknown. -/
def updateUser (st : Storage) (id : String) (p : UserPatch) : Storage × Option User :=
  match getUser st id with
  | none => (st, none)
  | some user =>
      let updatedUser := applyPatch user p
      ({ st with users := aset st.users id updatedUser }, some updatedUser)

/-- The fields a caller passes to `MemStorage.createUser` (the insert
schema omits `id` and `createdAt`; the verified registration flow also
passes `isVerified: false`). -/
structure InsertUser where
  name : String
  email : String
  password : String
  role : String
  isVerified : Bool
deriving DecidableEq

/-- `MemStorage.createUser`: fresh id (passed in for `randomUUID()`),
empty club list, `null` avatar, current timestamp. -/
def createUser (st : Storage) (data : InsertUser) (id : String) (now : Nat) :
    Storage × User :=
  let user : User :=
    { id := id
      name := data.name
      email := data.email
      password := data.password
      role := data.role
      clubs := []
      avatar := none
      createdAt := now
      isVerified := data.isVerified }
  ({ st with users := aset st.users id user }, user)

/-- The fields the `POST /api/events` handler passes to
`MemStorage.createEvent` (the insert schema omits `id`, `createdAt`,
`attendees` and `interested`; the handler adds `organizerId` and
`organizerName`). -/
structure InsertEvent where
  title : String
  description : String
  date : Nat
  venue : String
  club : Option String
  type : Option String
  organizerId : Option String
  organizerName : String
  image : Option String
deriving DecidableEq

/-- `MemStorage.createEvent`: fresh id, `type` defaulted to `college`,
empty attendee and interested lists, current timestamp, `image`
defaulted to `null`. -/
def createEvent (st : Storage) (data : InsertEvent) (id : String) (now : Nat) :
    Storage × Event :=
  let event : Event :=
    { id := id
      title := data.title
      description := data.description
      date := data.date
      venue := data.venue
      club := data.club
      type := data.type.getD "college"
      organizerId := data.organizerId
      organizerName := data.organizerName
      image := data.image
      attendees := []
      interested := []
      createdAt := now }
  ({ st with events := aset st.events id event }, event)

/-- The fields passed to `MemStorage.createNotification` (the insert
schema omits `id` and `createdAt`; `read` is forced to `false` by the
store). -/
structure InsertNotification where
  userId : Option String
  title : String
  message : String
  type : String
  eventId : Option String
deriving DecidableEq

/-- `MemStorage.createNotification`: fresh id, `read = false`, current
timestamp, `userId` and `eventId` defaulted to `null` when absent. -/
def createNotification (st : Storage) (data : InsertNotification) (id : String) (now : Nat) :
    Storage × Notification :=
  let n : Notification :=
    { id := id
      userId := data.userId
      title := data.title
      message := data.message
      type := data.type
      read := false
      eventId := data.eventId
      createdAt := now }
  ({ st with notifications := aset st.notifications id n }, n)

/-- The two RSVP kinds the route accepts (`'attending' | 'interested'`). -/
inductive RsvpType where
  | attending
  | interested
deriving DecidableEq

/-- `MemStorage.rsvpEvent`: unknown event id fails; otherwise the user is
filtered out of both lists and then pushed onto the list matching the
requested kind. -/
def rsvpEvent (st : Storage) (userId eventId : String) (ty : RsvpType) :
    Storage × Bool :=
  match aget st.events eventId with
  | none => (st, false)
  | some event =>
      let newAttendees := event.attendees.filter (fun i => i ≠ userId)
      let newInterested := event.interested.filter (fun i => i ≠ userId)
      let updatedEvent :=
        match ty with
        | .attending =>
            { event with attendees := newAttendees ++ [userId], interested := newInterested }
        | .interested =>
            { event with attendees := newAttendees, interested := newInterested ++ [userId] }
      ({ st with events := aset st.events eventId updatedEvent }, true)

/-- `MemStorage.unrsvpEvent`: unknown event id fails; otherwise the user
is filtered out of both lists unconditionally. -/
def unrsvpEvent (st : Storage) (userId eventId : String) : Storage × Bool :=
  match aget st.events eventId with
  | none => (st, false)
  | some event =>
      let updatedEvent :=
        { event with
            attendees := event.attendees.filter (fun i => i ≠ userId)
            interested := event.interested.filter (fun i => i ≠ userId) }
      ({ st with events := aset st.events eventId updatedEvent }, true)

/-- `MemStorage.joinClub`: fails when the user or the club is missing;
otherwise pushes the club name onto the user's list unless already
present (written back through `updateUser`), and pushes the user id onto
the club's member list unless already present (written back under the
club's own id). -/
def joinClub (st : Storage) (userId clubName : String) : Storage × Bool :=
  match getUser st userId, getClubByName st clubName with
  | some user, some club =>
      let st1 :=
        if clubName ∈ user.clubs then st
        else (updateUser st userId { clubs := some (user.clubs ++ [clubName]) }).1
      let st2 :=
        if userId ∈ club.members then st1
        else { st1 with
                 clubs := aset st1.clubs club.id
                   { club with members := club.members ++ [userId] } }
      (st2, true)
  | _, _ => (st, false)

/-- `MemStorage.leaveClub`: fails when the user or the club is missing;
otherwise filters the club name out of the user's list and the user id
out of the club's member list, writing both sides back. -/
def leaveClub (st : Storage) (userId clubName : String) : Storage × Bool :=
  match getUser st userId, getClubByName st clubName with
  | some user, some club =>
      let st1 := (updateUser st userId
        { clubs := some (user.clubs.filter (fun c => c ≠ clubName)) }).1
      let st2 :=
        { st1 with
            clubs := aset st1.clubs club.id
              { club with members := club.members.filter (fun m => m ≠ userId) } }
      (st2, true)
  | _, _ => (st, false)

/-- `MemStorage.markNotificationRead`: unknown id fails; otherwise the
record is rewritten with `read := true` under the same key. -/
def markNotificationRead (st : Storage) (id : String) : Storage × Bool :=
  match aget st.notifications id with
  | none => (st, false)
  | some n =>
      ({ st with notifications := aset st.notifications id { n with read := true } }, true)

/-- One element of the list `MemStorage.getEvents` returns: the event
spread together with the two counts (`EventWithDetails`). -/
structure EventWithCounts where
  event : Event
  attendeeCount : Nat
  interestedCount : Nat
deriving DecidableEq

/-- `MemStorage.getEvents`: every stored event annotated with the lengths
of its attendee and interested lists, computed at call time.  (The
source's `Array.isArray` guard is a no-op here because the lists are
always arrays.) -/
def getEvents (st : Storage) : List EventWithCounts :=
  st.events.map (fun p =>
    { event := p.2
      attendeeCount := p.2.attendees.length
      interestedCount := p.2.interested.length })

/-- The five clubs `MemStorage`'s constructor seeds
(`initializeDefaultClubs`), minus their generated ids. -/
def defaultClubSeed : List (String × String × String) :=
  [("Coding Club", "Programming and software development", "Technical"),
   ("Robotics Club", "Robotics and automation projects", "Technical"),
   ("Cultural Society", "Arts, music, and cultural activities", "Cultural"),
   ("Sports Club", "Athletic and sports activities", "Sports"),
   ("Photography Club", "Photography and visual arts", "Creative")]

/-- The store state right after the `MemStorage` constructor ran, with the
five `randomUUID()` results passed in explicitly and the construction
timestamp fixed at 0. -/
def initialStorage (ids : List String) : Storage :=
  { users := []
    events := []
    clubs := (ids.zip defaultClubSeed).map (fun p =>
      (p.1,
       { id := p.1
         name := p.2.1
         description := some p.2.2.1
         category := p.2.2.2
         adminId := none
         members := []
         createdAt := 0 }))
    notifications := [] }

/-- The club-membership mirror invariant of the spec: a user's `clubs`
list names a club exactly when that club's `members` list holds the
user's id (stated over the stored values, as a decidable `Bool`). -/
def mirrorHolds (st : Storage) : Bool :=
  (st.users.map Prod.snd).all (fun u =>
    (st.clubs.map Prod.snd).all (fun c =>
      decide (c.name ∈ u.clubs) == decide (u.id ∈ c.members)))

/-- The payload shape of a JWT this server ever signs: session tokens
carry `{ userId }` (signed at login with `expiresIn: '7d'`), verification
tokens carry `{ email }` (signed for the verification mail with
`expiresIn: '24h'`).  Both use the same secret, so `jwt.verify` accepts
either wherever it is called. -/
inductive Token where
  | session (userId : String)
  | verification (email : String)
deriving DecidableEq

/-- Reading `decoded.userId` off a verified token: a verification token
has no such property, so the read yields `undefined` (`none`). -/
def decodedUserId : Token → Option String
  | .session u => some u
  | .verification _ => none

/-- Reading `decoded.email` off a verified token. -/
def decodedEmail : Token → Option String
  | .session _ => none
  | .verification e => some e

/-- What the bearer header of an HTTP request can carry: no token at all,
a token `jwt.verify` throws on (bad signature or expired), or a
well-signed unexpired token of either class. -/
inductive BearerInput where
  | missing
  | invalid
  | valid (t : Token)
deriving DecidableEq

/-- Outcome of the `authenticateToken` middleware. -/
inductive AuthOutcome where
  | ok (u : User)
  | http401
  | http403
deriving DecidableEq

/-- The `authenticateToken` middleware: 401 without a token, 403 when
`jwt.verify` throws; otherwise `storage.getUser(decoded.userId)` decides —
a missing or unknown id (a `Map.get` on `undefined` or an absent key
yields `undefined`) gives 401, a hit attaches the user. -/
def authenticateToken (st : Storage) (input : BearerInput) : AuthOutcome :=
  match input with
  | .missing => .http401
  | .invalid => .http403
  | .valid t =>
      match (decodedUserId t).bind (getUser st) with
      | none => .http401
      | some u => .ok u

/-- The token field of a WebSocket `{type: 'auth', token}` frame: either a
token `jwt.verify` throws on, or a well-signed token of either class. -/
inductive WsToken where
  | invalid
  | valid (t : Token)
deriving DecidableEq

/-- Effect of one WebSocket auth frame on the connection-registry map
(`clients`, keyed by `decoded.userId` — which is `undefined` for a token
without a `userId` claim) and on the handling connection. -/
structure WsEffect where
  clients : List (Option String × Nat)
  closed : Bool
deriving DecidableEq

/-- The `wss.on('connection')` message handler for an auth frame: when
`jwt.verify` throws the connection is closed; otherwise
`clients.set(decoded.userId, ws)` registers the connection — with no
check that the token carries a `userId` claim or that it resolves to a
user. -/
def wsAuthMessage (clients : List (Option String × Nat)) (ws : Nat) (tok : WsToken) :
    WsEffect :=
  match tok with
  | .invalid => { clients := clients, closed := true }
  | .valid t => { clients := aset clients (decodedUserId t) ws, closed := false }

/-- The `ws.on('close')` handler: drop the first registry entry whose
value is this exact connection handle, if any. -/
def wsClose (clients : List (Option String × Nat)) (ws : Nat) :
    List (Option String × Nat) :=
  match clients with
  | [] => []
  | (k, c) :: rest => if c = ws then rest else (k, c) :: wsClose rest ws

/-- A JSON scalar, enough to describe the wire payloads this server
sends. -/
inductive JVal where
  | s (v : String)
  | b (v : Bool)
  | n (v : Nat)
  | jnull
deriving DecidableEq

/-- A flat JSON object: ordered field list. -/
def JObj : Type := List (String × JVal)

instance : DecidableEq JObj := by
  unfold JObj
  infer_instance

/-- The `{type, data}` envelope `broadcastNotification` stringifies onto
the socket. -/
structure WirePayload where
  type : String
  data : JObj
deriving DecidableEq

def encodeOptStr : Option String → JVal
  | some s => .s s
  | none => .jnull

/-- How a persisted `Notification` record would appear as a JSON
object. -/
def encodeNotification (n : Notification) : JObj :=
  [("id", .s n.id), ("userId", encodeOptStr n.userId), ("title", .s n.title),
   ("message", .s n.message), ("type", .s n.type), ("read", .b n.read),
   ("eventId", encodeOptStr n.eventId), ("createdAt", .n n.createdAt)]

/-- `broadcastNotification` / the registry's send-to-user operation: look
the user id up in `clients`; deliver the payload when an entry exists and
that connection's `readyState` is `OPEN` (membership in `openConns`),
otherwise silently deliver to no one.  The result records which
connection, if any, received the payload. -/
def broadcastNotification (clients : List (Option String × Nat)) (openConns : List Nat)
    (userId : String) (payload : WirePayload) : Option (Nat × WirePayload) :=
  match aget clients (some userId) with
  | none => none
  | some c => if c ∈ openConns then some (c, payload) else none

/-- Outcome of `GET /api/auth/verify`. -/
inductive VerifyResult where
  | badRequest
  | okAlready
  | okVerified
deriving DecidableEq

/-- The `GET /api/auth/verify` handler: 400 without a `token` query
parameter or when `jwt.verify` throws; otherwise
`getUserByEmail(decoded.email)` decides — for a token without an `email`
claim the lookup compares every (string) stored email against
`undefined` and finds nothing, giving 400 `Invalid token`; a hit answers
200, flipping `isVerified` through `updateUser` unless already set. -/
def verifyEmail (st : Storage) (input : Option WsToken) : Storage × VerifyResult :=
  match input with
  | none => (st, .badRequest)
  | some .invalid => (st, .badRequest)
  | some (.valid t) =>
      match (decodedEmail t).bind (getUserByEmail st) with
      | none => (st, .badRequest)
      | some user =>
          if user.isVerified then (st, .okAlready)
          else ((updateUser st user.id { isVerified := some true }).1, .okVerified)

/-- `Omit<User, 'password'>`: the record the auth responses return. -/
structure AuthUser where
  id : String
  name : String
  email : String
  role : String
  clubs : List String
  avatar : Option String
  createdAt : Nat
  isVerified : Bool
deriving DecidableEq

/-- The `{ password, ...userWithoutPassword }` destructuring. -/
def stripPassword (u : User) : AuthUser :=
  { id := u.id
    name := u.name
    email := u.email
    role := u.role
    clubs := u.clubs
    avatar := u.avatar
    createdAt := u.createdAt
    isVerified := u.isVerified }

/-- A token together with the `expiresIn` option it was signed with. -/
structure SignedToken where
  payload : Token
  expiresIn : String
deriving DecidableEq

/-- Outcome of `POST /api/auth/login`. -/
inductive LoginResult where
  | unauthorized
  | forbidden
  | ok (user : AuthUser) (token : SignedToken)
deriving DecidableEq

/-- The verified-flow `POST /api/auth/login` handler (the canonical one
per the spec): unknown email is 401; an unverified account is 403 before
the password is even compared; a failed `bcrypt.compare` is 401;
otherwise the response carries the user without its password field and a
`{ userId }` token signed with `expiresIn: '7d'`.  The bcrypt comparison
is an external collaborator and is passed in as an oracle. -/
def login (st : Storage) (compare : String → String → Bool)
    (email password : String) : LoginResult :=
  match getUserByEmail st email with
  | none => .unauthorized
  | some user =>
      if user.isVerified = false then .forbidden
      else if compare password user.password = false then .unauthorized
      else .ok (stripPassword user) { payload := .session user.id, expiresIn := "7d" }

/-- Result of the verified-flow `POST /api/events` handler: the store
afterwards, the HTTP status, the notification record `createNotification`
persisted (when one was), and the wire payload the handler then hands to
`broadcastNotification` (when it does). -/
structure PostEventOut where
  st : Storage
  status : Nat
  notif : Option Notification
  wire : Option WirePayload
deriving DecidableEq

/-- The verified-flow `POST /api/events` handler: a caller whose role is
neither `Organizer` nor `Faculty` gets 403 with nothing created;
otherwise the event is created, then the notification is persisted via
`createNotification`, and only then is a push attempted — whose `data` is
the freshly built object `{title, message}`, not the persisted record. -/
def postEvent (st : Storage) (caller : User) (data : InsertEvent)
    (eid nid : String) (now : Nat) : PostEventOut :=
  if caller.role = "Organizer" ∨ caller.role = "Faculty" then
    let r1 := createEvent st
      { data with organizerId := some caller.id, organizerName := caller.name } eid now
    let event := r1.2
    let r2 := createNotification r1.1
      { userId := some caller.id
        title := "New Event Created"
        message := event.title ++ " has been scheduled"
        type := "event"
        eventId := some event.id } nid now
    { st := r2.1
      status := 201
      notif := some r2.2
      wire := some
        { type := "notification"
          data := [("title", .s "New Event Created"),
                   ("message", .s (event.title ++ " has been scheduled"))] } }
  else { st := st, status := 403, notif := none, wire := none }

/-- The handler above composed with the actual push through the live
connection registry: the storage part of the outcome is independent of
the registry, so a skipped or failed delivery cannot touch the persisted
notification. -/
def postEventAndPush (st : Storage) (clients : List (Option String × Nat))
    (openConns : List Nat) (caller : User) (data : InsertEvent)
    (eid nid : String) (now : Nat) : PostEventOut × Option (Nat × WirePayload) :=
  let out := postEvent st caller data eid nid now
  (out,
   match out.wire with
   | some w => broadcastNotification clients openConns caller.id w
   | none => none)

/-- The `POST /api/events/:id/rsvp` handler for an authenticated caller:
reject a body whose `type` is neither `attending` nor `interested` with
400, then map `storage.rsvpEvent`'s failure to 404 and success to 200. -/
def postEventRsvp (st : Storage) (caller : User) (eventId : String)
    (ty : String) : Storage × Nat :=
  if ty = "attending" ∨ ty = "interested" then
    let r := rsvpEvent st caller.id eventId
      (if ty = "attending" then .attending else .interested)
    if r.2 then (r.1, 200) else (r.1, 404)
  else (st, 400)

/-- The `POST /api/notifications/:id/read` handler for an authenticated
caller: it passes only the path id to `storage.markNotificationRead` —
the caller is never consulted, so there is no ownership check. -/
def postNotificationRead (st : Storage) (caller : User) (id : String) :
    Storage × Nat :=
  let r := markNotificationRead st id
  if r.2 then (r.1, 200) else (r.1, 404)

/-- The attendee list of a stored event (empty when the id is unknown). -/
def eventAttendees (st : Storage) (eventId : String) : List String :=
  ((aget st.events eventId).map Event.attendees).getD []

/-- The interested list of a stored event (empty when the id is
unknown). -/
def eventInterested (st : Storage) (eventId : String) : List String :=
  ((aget st.events eventId).map Event.interested).getD []

/-- One club side of the mirror: the stored user exists and lists the
club's name. -/
def userHasClub (st : Storage) (userId clubName : String) : Prop :=
  ∃ u, getUser st userId = some u ∧ clubName ∈ u.clubs

/-- The other side of the mirror: the club (as the store finds it by
name) exists and lists the user's id. -/
def clubHasMember (st : Storage) (clubName userId : String) : Prop :=
  ∃ c, getClubByName st clubName = some c ∧ userId ∈ c.members

/-- Well-formedness every reachable club map enjoys: keys are distinct
(`randomUUID`) and each club record's `id` field is its key. -/
def ClubsWF (st : Storage) : Prop :=
  (st.clubs.map Prod.fst).Nodup ∧ ∀ p ∈ st.clubs, (p.2).id = p.1

instance (st : Storage) : Decidable (ClubsWF st) := by
  unfold ClubsWF
  infer_instance

/-- A verified student, used to instantiate the theorems. -/
def sampleUser : User :=
  { id := "u1", name := "Asha", email := "a@srec.ac.in", password := "pwh",
    role := "Student", clubs := [], avatar := none, createdAt := 3,
    isVerified := true }

/-- A verified organizer. -/
def sampleOrganizer : User :=
  { id := "u2", name := "Ravi", email := "r@srec.ac.in", password := "pwh2",
    role := "Organizer", clubs := [], avatar := none, createdAt := 4,
    isVerified := true }

/-- A registered but still unverified user. -/
def sampleUnverified : User :=
  { id := "u3", name := "Mona", email := "m@srec.ac.in", password := "pwh3",
    role := "Student", clubs := [], avatar := none, createdAt := 5,
    isVerified := false }

/-- A stored event with no RSVPs yet. -/
def sampleEvent : Event :=
  { id := "e1", title := "Tech Talk", description := "intro", date := 10,
    venue := "Hall", club := none, type := "college", organizerId := some "u2",
    organizerName := "Ravi", image := none, attendees := [], interested := [],
    createdAt := 1 }

/-- A stored notification addressed to the organizer. -/
def sampleNotif : Notification :=
  { id := "n1", userId := some "u2", title := "hello", message := "world",
    type := "general", read := false, eventId := none, createdAt := 2 }

/-- A concrete store: the five seeded clubs plus three users, one event
and one notification. -/
def sampleStorage : Storage :=
  { users := [("u1", sampleUser), ("u2", sampleOrganizer), ("u3", sampleUnverified)]
    events := [("e1", sampleEvent)]
    clubs := (initialStorage ["c1", "c2", "c3", "c4", "c5"]).clubs
    notifications := [("n1", sampleNotif)] }

/-- A concrete stand-in for the external `bcrypt.compare` oracle: a hash
matches exactly the password it is the image of under a fixed mock
hashing scheme. -/
def sampleCompare (password hash : String) : Bool :=
  hash == password ++ "h"

/-- A concrete request body for `POST /api/events`. -/
def sampleInsertEvent : InsertEvent :=
  { title := "Hackathon", description := "48 hours", date := 20, venue := "Lab",
    club := none, type := some "college", organizerId := none,
    organizerName := "", image := none }

/-!
Helper lemmas about the association-list operations, followed by the
claim theorems and their witnesses.
-/

theorem aget_aset_self {κ α : Type} [DecidableEq κ] (m : List (κ × α)) (k : κ) (v : α) :
    aget (aset m k v) k = some v := by
  induction m with
  | nil => simp [aget, aset]
  | cons p rest ih =>
      obtain ⟨k', v'⟩ := p
      by_cases h : k' = k
      · simp [aget, aset, h]
      · simp [aget, aset, h, ih]

theorem aget_aset_ne {κ α : Type} [DecidableEq κ] (m : List (κ × α)) (k k' : κ) (v : α)
    (h : k' ≠ k) : aget (aset m k v) k' = aget m k' := by
  induction m with
  | nil => simp [aget, aset, Ne.symm h]
  | cons p rest ih =>
      obtain ⟨k₀, v₀⟩ := p
      by_cases h0 : k₀ = k
      · subst h0
        simp [aget, aset, Ne.symm h]
      · simp [aget, aset, h0, ih]

theorem aget_after_rsvp_attending (st : Storage) (u e : String) (ev : Event)
    (h : aget st.events e = some ev) :
    aget (rsvpEvent st u e .attending).1.events e =
      some { ev with attendees := ev.attendees.filter (fun i => i ≠ u) ++ [u],
                     interested := ev.interested.filter (fun i => i ≠ u) } := by
  simp [rsvpEvent, h, aget_aset_self]

theorem aget_after_rsvp_interested (st : Storage) (u e : String) (ev : Event)
    (h : aget st.events e = some ev) :
    aget (rsvpEvent st u e .interested).1.events e =
      some { ev with attendees := ev.attendees.filter (fun i => i ≠ u),
                     interested := ev.interested.filter (fun i => i ≠ u) ++ [u] } := by
  simp [rsvpEvent, h, aget_aset_self]

theorem aget_after_unrsvp (st : Storage) (u e : String) (ev : Event)
    (h : aget st.events e = some ev) :
    aget (unrsvpEvent st u e).1.events e =
      some { ev with attendees := ev.attendees.filter (fun i => i ≠ u),
                     interested := ev.interested.filter (fun i => i ≠ u) } := by
  simp [unrsvpEvent, h, aget_aset_self]

/-- Claim C1: for an existing event, `rsvpEvent(u, e, attending)` leaves
the user in the attendee list and out of the interested list; a
subsequent `rsvpEvent(u, e, interested)` swaps the two; `unrsvpEvent`
clears both; and `rsvpEvent` returns `false` — which the route maps to
404 — exactly when the event id is unknown. -/
theorem C1_rsvp_exclusive (st st1 st2 st3 : Storage) (u e : String) (ev : Event)
    (h : aget st.events e = some ev)
    (h1 : st1 = (rsvpEvent st u e .attending).1)
    (h2 : st2 = (rsvpEvent st1 u e .interested).1)
    (h3 : st3 = (unrsvpEvent st2 u e).1) :
    ((rsvpEvent st u e .attending).2 = true ∧
      u ∈ eventAttendees st1 e ∧ u ∉ eventInterested st1 e) ∧
    ((rsvpEvent st1 u e .interested).2 = true ∧
      u ∉ eventAttendees st2 e ∧ u ∈ eventInterested st2 e) ∧
    ((unrsvpEvent st2 u e).2 = true ∧
      u ∉ eventAttendees st3 e ∧ u ∉ eventInterested st3 e) ∧
    (∀ (st' : Storage) (u' e' : String) (ty : RsvpType),
      (rsvpEvent st' u' e' ty).2 = false ↔ aget st'.events e' = none) ∧
    (∀ (st' : Storage) (caller : User) (e' ty' : String),
      ty' = "attending" ∨ ty' = "interested" →
      ((postEventRsvp st' caller e' ty').2 = 404 ↔ aget st'.events e' = none)) := by
  subst h1 h2 h3
  have hA := aget_after_rsvp_attending st u e ev h
  generalize hS1 : (rsvpEvent st u e RsvpType.attending).1 = S1 at hA ⊢
  have hI := aget_after_rsvp_interested S1 u e _ hA
  generalize hS2 : (rsvpEvent S1 u e RsvpType.interested).1 = S2 at hI ⊢
  have hU := aget_after_unrsvp S2 u e _ hI
  generalize hS3 : (unrsvpEvent S2 u e).1 = S3 at hU ⊢
  refine ⟨⟨?_, ?_, ?_⟩, ⟨?_, ?_, ?_⟩, ⟨?_, ?_, ?_⟩, ?_, ?_⟩
  · simp [rsvpEvent, h]
  · simp [eventAttendees, hA]
  · simp [eventInterested, hA, List.mem_filter]
  · simp [rsvpEvent, hA]
  · simp [eventAttendees, hI, List.mem_filter]
  · simp [eventInterested, hI]
  · simp [unrsvpEvent, hI]
  · simp [eventAttendees, hU, List.mem_filter]
  · simp [eventInterested, hU, List.mem_filter]
  · intro st' u' e' ty
    cases hq : aget st'.events e' <;> cases ty <;> simp [rsvpEvent, hq]
  · intro st' caller e' ty' hty
    rcases hty with hty | hty <;> subst hty <;>
      cases hq : aget st'.events e' <;>
        simp [postEventRsvp, rsvpEvent, hq]

/-- Concrete instantiation of the C1 theorem on the sample store. -/
theorem C1_rsvp_exclusive_witness :
    "u1" ∈ eventAttendees (rsvpEvent sampleStorage "u1" "e1" .attending).1 "e1" ∧
    "u1" ∉ eventInterested (rsvpEvent sampleStorage "u1" "e1" .attending).1 "e1" :=
  ⟨((C1_rsvp_exclusive sampleStorage _ _ _ "u1" "e1" sampleEvent rfl rfl rfl rfl).1).2.1,
   ((C1_rsvp_exclusive sampleStorage _ _ _ "u1" "e1" sampleEvent rfl rfl rfl rfl).1).2.2⟩

/-- Claim C8: every element `getEvents` returns carries counts equal to
the lengths of the underlying stored event's live RSVP lists — the
counts are recomputed from the lists on each call, never cached. -/
theorem C8_counts_live (st : Storage) (x : EventWithCounts) (hx : x ∈ getEvents st) :
    x.attendeeCount = x.event.attendees.length ∧
    x.interestedCount = x.event.interested.length ∧
    ∃ k, (k, x.event) ∈ st.events := by
  simp only [getEvents, List.mem_map] at hx
  obtain ⟨p, hp, rfl⟩ := hx
  exact ⟨rfl, rfl, p.1, hp⟩

/-- Concrete instantiation of the C8 theorem on the sample store. -/
theorem C8_counts_live_witness :
    (⟨sampleEvent, 0, 0⟩ : EventWithCounts).attendeeCount =
      sampleEvent.attendees.length ∧
    (⟨sampleEvent, 0, 0⟩ : EventWithCounts).interestedCount =
      sampleEvent.interested.length ∧
    ∃ k, (k, sampleEvent) ∈ sampleStorage.events :=
  C8_counts_live sampleStorage ⟨sampleEvent, 0, 0⟩ (by decide)

/-- Claim C10 (implicit): the mark-read route never consults the caller.
For any existing notification — including one whose target user differs
from the caller — it answers 200, rewrites exactly that record with
`read := true`, and leaves every other notification and the other three
maps untouched. -/
theorem C10_mark_read_no_ownership (st : Storage) (caller : User) (id : String)
    (n : Notification) (hn : aget st.notifications id = some n) :
    (postNotificationRead st caller id).2 = 200 ∧
    aget (postNotificationRead st caller id).1.notifications id =
      some { n with read := true } ∧
    (∀ k, k ≠ id →
      aget (postNotificationRead st caller id).1.notifications k =
        aget st.notifications k) ∧
    (∀ caller' : User,
      postNotificationRead st caller' id = postNotificationRead st caller id) ∧
    (postNotificationRead st caller id).1.users = st.users ∧
    (postNotificationRead st caller id).1.events = st.events ∧
    (postNotificationRead st caller id).1.clubs = st.clubs := by
  refine ⟨?_, ?_, ?_, ?_, ?_, ?_, ?_⟩
  · simp [postNotificationRead, markNotificationRead, hn]
  · simp [postNotificationRead, markNotificationRead, hn, aget_aset_self]
  · intro k hk
    simp [postNotificationRead, markNotificationRead, hn, aget_aset_ne _ _ _ _ hk]
  · intro caller'
    rfl
  · simp [postNotificationRead, markNotificationRead, hn]
  · simp [postNotificationRead, markNotificationRead, hn]
  · simp [postNotificationRead, markNotificationRead, hn]

/-- Concrete instantiation of C10: the student marks the organizer's
notification read and the route reports success. -/
theorem C10_mark_read_no_ownership_witness :
    (postNotificationRead sampleStorage sampleUser "n1").2 = 200 ∧
    sampleNotif.userId ≠ some sampleUser.id :=
  ⟨(C10_mark_read_no_ownership sampleStorage sampleUser "n1" sampleNotif rfl).1,
   by decide⟩

theorem mem_aset_cases {κ α : Type} [DecidableEq κ] (m : List (κ × α)) (k : κ) (v : α)
    (p : κ × α) (hp : p ∈ aset m k v) : p = (k, v) ∨ p ∈ m := by
  induction m with
  | nil =>
      left
      simpa [aset] using hp
  | cons q rest ih =>
      obtain ⟨k₀, v₀⟩ := q
      by_cases h0 : k₀ = k
      · rw [show aset ((k₀, v₀) :: rest) k v = (k, v) :: rest from by simp [aset, h0]] at hp
        rcases List.mem_cons.mp hp with h | h
        · exact Or.inl h
        · exact Or.inr (List.mem_cons_of_mem _ h)
      · rw [show aset ((k₀, v₀) :: rest) k v = (k₀, v₀) :: aset rest k v from by
          simp [aset, h0]] at hp
        rcases List.mem_cons.mp hp with h | h
        · exact Or.inr (by simp [h])
        · rcases ih h with h' | h'
          · exact Or.inl h'
          · exact Or.inr (List.mem_cons_of_mem _ h')

theorem keys_aset_of_mem {κ α : Type} [DecidableEq κ] (m : List (κ × α)) (k : κ) (v : α)
    (hk : k ∈ m.map Prod.fst) : (aset m k v).map Prod.fst = m.map Prod.fst := by
  induction m with
  | nil => simp at hk
  | cons q rest ih =>
      obtain ⟨k₀, v₀⟩ := q
      by_cases h0 : k₀ = k
      · simp [aset, h0]
      · have hk' : k ∈ rest.map Prod.fst := by
          rcases List.mem_cons.mp hk with hk | hk
          · exact absurd hk.symm h0
          · exact hk
        simp [aset, h0, ih hk']

theorem keys_aset_of_not_mem {κ α : Type} [DecidableEq κ] (m : List (κ × α)) (k : κ) (v : α)
    (hk : k ∉ m.map Prod.fst) : (aset m k v).map Prod.fst = m.map Prod.fst ++ [k] := by
  induction m with
  | nil => simp [aset]
  | cons q rest ih =>
      obtain ⟨k₀, v₀⟩ := q
      have h0 : k₀ ≠ k := by
        intro h
        exact hk (by simp [h])
      have hk' : k ∉ rest.map Prod.fst := fun h => hk (by simp [h])
      simp [aset, h0, ih hk']

theorem keys_nodup_aset {κ α : Type} [DecidableEq κ] (m : List (κ × α)) (k : κ) (v : α)
    (hnd : (m.map Prod.fst).Nodup) : ((aset m k v).map Prod.fst).Nodup := by
  by_cases hk : k ∈ m.map Prod.fst
  · rw [keys_aset_of_mem m k v hk]
    exact hnd
  · rw [keys_aset_of_not_mem m k v hk]
    simp [List.nodup_append, hnd, hk]

theorem mem_aset_eq_of_nodup {κ α : Type} [DecidableEq κ] (m : List (κ × α)) (k : κ)
    (v v' : α) (hnd : (m.map Prod.fst).Nodup) (hmem : (k, v') ∈ aset m k v) : v' = v := by
  induction m with
  | nil =>
      simp [aset] at hmem
      exact hmem
  | cons q rest ih =>
      obtain ⟨k₀, v₀⟩ := q
      simp only [List.map_cons, List.nodup_cons] at hnd
      by_cases h0 : k₀ = k
      · subst h0
        rw [show aset ((k₀, v₀) :: rest) k₀ v = (k₀, v) :: rest from by simp [aset]] at hmem
        rcases List.mem_cons.mp hmem with hp | hp
        · exact congrArg Prod.snd hp
        · exact absurd (List.mem_map.mpr ⟨(k₀, v'), hp, rfl⟩) hnd.1
      · rw [show aset ((k₀, v₀) :: rest) k v = (k₀, v₀) :: aset rest k v from by
          simp [aset, h0]] at hmem
        rcases List.mem_cons.mp hmem with hp | hp
        · exact absurd (congrArg Prod.fst hp).symm h0
        · exact ih hnd.2 hp

/-- Claim C7: once a second connection authenticates for the same user,
the registry maps that user to the newest connection only; `sendTo`
(`broadcastNotification`) then delivers to it alone and never to the
superseded one; neither registration closes a connection; and a user
with no open registered connection receives nothing. -/
theorem C7_registry_newest_wins (clients : List (Option String × Nat)) (u : String)
    (c1 c2 : Nat) (r1 r2 : WsEffect) (openConns : List Nat) (payload : WirePayload)
    (hne : c1 ≠ c2)
    (h1 : r1 = wsAuthMessage clients c1 (.valid (.session u)))
    (h2 : r2 = wsAuthMessage r1.clients c2 (.valid (.session u))) :
    (r1.closed = false ∧ r2.closed = false) ∧
    aget r2.clients (some u) = some c2 ∧
    ((clients.map Prod.fst).Nodup →
      (r2.clients.map Prod.fst).Nodup ∧
      ∀ v', (some u, v') ∈ r2.clients → v' = c2) ∧
    broadcastNotification r2.clients openConns u payload =
      (if c2 ∈ openConns then some (c2, payload) else none) ∧
    (∀ x, broadcastNotification r2.clients openConns u payload = some x → x.1 ≠ c1) ∧
    (∀ (cls : List (Option String × Nat)) (u' : String) (p : WirePayload),
      aget cls (some u') = none → broadcastNotification cls openConns u' p = none) ∧
    (∀ (cls : List (Option String × Nat)) (u' : String) (p : WirePayload) (c : Nat),
      aget cls (some u') = some c → c ∉ openConns →
      broadcastNotification cls openConns u' p = none) := by
  subst h1 h2
  have hg : aget (wsAuthMessage (wsAuthMessage clients c1 (.valid (.session u))).clients c2
      (.valid (.session u))).clients (some u) = some c2 := aget_aset_self _ _ _
  have hbc : broadcastNotification (wsAuthMessage (wsAuthMessage clients c1
        (.valid (.session u))).clients c2 (.valid (.session u))).clients openConns u payload =
      (if c2 ∈ openConns then some (c2, payload) else none) := by
    simp [broadcastNotification, hg]
  refine ⟨⟨rfl, rfl⟩, hg, ?_, hbc, ?_, ?_, ?_⟩
  · intro hnd
    have hnd1 : ((wsAuthMessage clients c1 (.valid (.session u))).clients.map Prod.fst).Nodup :=
      keys_nodup_aset clients (some u) c1 hnd
    exact ⟨keys_nodup_aset _ (some u) c2 hnd1,
      fun v' hv' => mem_aset_eq_of_nodup _ _ _ _ hnd1 hv'⟩
  · intro x hx
    rw [hbc] at hx
    by_cases hc : c2 ∈ openConns
    · rw [if_pos hc] at hx
      cases hx
      exact Ne.symm hne
    · rw [if_neg hc] at hx
      cases hx
  · intro cls u' p hget
    simp [broadcastNotification, hget]
  · intro cls u' p c hget hc
    simp [broadcastNotification, hget, hc]

/-- Concrete instantiation of C7: two fresh registrations for `u1`; the
push goes to connection 2, not connection 1. -/
theorem C7_registry_newest_wins_witness :
    broadcastNotification
      (wsAuthMessage (wsAuthMessage [] 1 (.valid (.session "u1"))).clients 2
        (.valid (.session "u1"))).clients [1, 2] "u1"
      { type := "notification", data := [] } =
      some (2, { type := "notification", data := [] }) := by
  have h := C7_registry_newest_wins [] "u1" 1 2 _ _ [1, 2]
    { type := "notification", data := [] } (by decide) rfl rfl
  rw [h.2.2.2.1]
  simp

/-- Claim C2 (code bug evidence): the membership mirror holds after
seeding the store and registering a user, yet one `updateUser` call
whose patch carries a `clubs` field — exactly what
`PATCH /api/auth/profile` forwards from the request body — writes the
user side only and breaks the invariant. -/
theorem C2_mirror_broken_by_updateUser :
    mirrorHolds sampleStorage = true ∧
    mirrorHolds (updateUser sampleStorage "u1" { clubs := some ["Coding Club"] }).1 = false := by
  constructor
  · decide
  · decide

/-- Claim C3 (code bug evidence): the HTTP bearer middleware rejects any
verification token with 401 and the verify endpoint rejects any session
token with 400 leaving the store unchanged — but the WebSocket auth
handler, which never looks the decoded subject up, accepts a well-signed
verification token: it registers the connection in the client map (under
the `undefined` decoded `userId`) and leaves it open instead of
rejecting it. -/
theorem C3_ws_accepts_verification_token :
    (∀ (st : Storage) (e : String),
      authenticateToken st (.valid (.verification e)) = .http401) ∧
    (∀ (st : Storage) (uid : String),
      (verifyEmail st (some (.valid (.session uid)))).2 = .badRequest ∧
      (verifyEmail st (some (.valid (.session uid)))).1 = st) ∧
    wsAuthMessage [] 7 (.valid (.verification "a@srec.ac.in")) =
      { clients := [(none, 7)], closed := false } := by
  refine ⟨fun st e => rfl, fun st uid => ⟨rfl, rfl⟩, rfl⟩

/-- Claim C6 (code bug evidence): the object spread in `updateUser` lets
the patch overwrite the protected fields: patching the sample user
(id `u1`, created at 3) with `{id: "u9", createdAt: 99}` yields a stored
record whose id and creation timestamp both changed. -/
theorem C6_updateUser_overwrites_id :
    (updateUser sampleStorage "u1" { id := some "u9", createdAt := some 99 }).2 =
      some { sampleUser with id := "u9", createdAt := 99 } ∧
    aget (updateUser sampleStorage "u1"
        { id := some "u9", createdAt := some 99 }).1.users "u1" =
      some { sampleUser with id := "u9", createdAt := 99 } ∧
    sampleUser.id = "u1" ∧ sampleUser.createdAt = 3 := by
  refine ⟨?_, ?_, rfl, rfl⟩
  · decide
  · decide

/-- Counterexample to claim C4 as stated: at a concrete event-creation
request the wire payload the handler pushes is not the persisted
notification record wrapped in the `{type, data}` envelope — its `data`
carries only `title` and `message`, no `id`, `read`, `type`, `eventId`
or timestamp. -/
theorem C4_payload_is_not_persisted_record :
    (postEvent sampleStorage sampleOrganizer sampleInsertEvent "e2" "n2" 7).wire ≠
      ((postEvent sampleStorage sampleOrganizer sampleInsertEvent "e2" "n2" 7).notif.map
        (fun n => { type := "notification", data := encodeNotification n })) := by
  decide

/-- Claim C4 (amended): on authorized event creation the notification is
persisted via `createNotification` before any push is attempted; the
pushed wire payload is `{type: "notification", data: {title, message}}`
where title and message agree with the persisted record (but the payload
is a fresh two-field object, not the persisted record); and the
persisted state is the same whatever the registry holds, so a skipped or
failed push never removes or alters the persisted notification. -/
theorem C4_persist_before_push (st : Storage) (caller : User) (data : InsertEvent)
    (eid nid : String) (now : Nat)
    (hrole : caller.role = "Organizer" ∨ caller.role = "Faculty") :
    ∃ n : Notification,
      (postEvent st caller data eid nid now).notif = some n ∧
      aget (postEvent st caller data eid nid now).st.notifications nid = some n ∧
      n.read = false ∧ n.type = "event" ∧ n.eventId = some eid ∧
      n.userId = some caller.id ∧ n.createdAt = now ∧
      n.title = "New Event Created" ∧
      n.message = data.title ++ " has been scheduled" ∧
      (postEvent st caller data eid nid now).wire =
        some { type := "notification",
               data := [("title", .s n.title), ("message", .s n.message)] } ∧
      (∀ (clients : List (Option String × Nat)) (openConns : List Nat),
        (postEventAndPush st clients openConns caller data eid nid now).1 =
          postEvent st caller data eid nid now ∧
        ∀ x, (postEventAndPush st clients openConns caller data eid nid now).2 = some x →
          x.2 = { type := "notification",
                  data := [("title", .s n.title), ("message", .s n.message)] }) := by
  refine ⟨{ id := nid, userId := some caller.id, title := "New Event Created",
            message := data.title ++ " has been scheduled", type := "event",
            read := false, eventId := some eid, createdAt := now },
          ?_, ?_, rfl, rfl, rfl, rfl, rfl, rfl, rfl, ?_, ?_⟩
  · simp [postEvent, hrole, createEvent, createNotification]
  · simp [postEvent, hrole, createEvent, createNotification, aget_aset_self]
  · simp [postEvent, hrole, createEvent, createNotification]
  · intro clients openConns
    refine ⟨rfl, ?_⟩
    intro x hx
    simp only [postEventAndPush, postEvent, hrole, if_true, createEvent,
      createNotification, broadcastNotification] at hx
    rcases hq : aget clients (some caller.id) with _ | c
    · simp [hq] at hx
    · simp only [hq] at hx
      by_cases hc : c ∈ openConns
      · rw [if_pos hc] at hx
        cases hx
        rfl
      · rw [if_neg hc] at hx
        cases hx

/-- Concrete instantiation of the amended C4 theorem: the organizer
creates an event; the persisted notification and pushed payload are as
described. -/
theorem C4_persist_before_push_witness :
    ∃ n : Notification,
      (postEvent sampleStorage sampleOrganizer sampleInsertEvent "e2" "n2" 7).notif =
        some n ∧
      aget (postEvent sampleStorage sampleOrganizer sampleInsertEvent
          "e2" "n2" 7).st.notifications "n2" = some n ∧
      n.read = false ∧ n.type = "event" ∧ n.eventId = some "e2" ∧
      n.userId = some sampleOrganizer.id ∧ n.createdAt = 7 ∧
      n.title = "New Event Created" ∧
      n.message = sampleInsertEvent.title ++ " has been scheduled" ∧
      (postEvent sampleStorage sampleOrganizer sampleInsertEvent "e2" "n2" 7).wire =
        some { type := "notification",
               data := [("title", .s n.title), ("message", .s n.message)] } ∧
      (∀ (clients : List (Option String × Nat)) (openConns : List Nat),
        (postEventAndPush sampleStorage clients openConns sampleOrganizer
            sampleInsertEvent "e2" "n2" 7).1 =
          postEvent sampleStorage sampleOrganizer sampleInsertEvent "e2" "n2" 7 ∧
        ∀ x, (postEventAndPush sampleStorage clients openConns sampleOrganizer
            sampleInsertEvent "e2" "n2" 7).2 = some x →
          x.2 = { type := "notification",
                  data := [("title", .s n.title), ("message", .s n.message)] }) :=
  C4_persist_before_push sampleStorage sampleOrganizer sampleInsertEvent "e2" "n2" 7
    (Or.inl rfl)

theorem find_club_aset (m : List (String × Club)) (club c' : Club) (name : String)
    (hnd : (m.map Prod.fst).Nodup)
    (hids : ∀ p ∈ m, (p.2).id = p.1)
    (hfind : (m.map Prod.snd).find? (fun cl => cl.name == name) = some club)
    (hname : c'.name = club.name) :
    ((aset m club.id c').map Prod.snd).find? (fun cl => cl.name == name) = some c' := by
  induction m with
  | nil => simp at hfind
  | cons q rest ih =>
      obtain ⟨k, v⟩ := q
      simp only [List.map_cons] at hfind
      simp only [List.map_cons, List.nodup_cons] at hnd
      cases hv : (v.name == name) with
      | true =>
        simp only [List.find?_cons, hv, cond_true] at hfind
        injection hfind with hvc
        rw [← hvc] at hname ⊢
        have hk : v.id = k := hids (k, v) (List.mem_cons_self _ _)
        rw [show aset ((k, v) :: rest) v.id c' = (k, c') :: rest from by simp [aset, hk]]
        simp [List.find?_cons, hname, hv]
      | false =>
        simp only [List.find?_cons, hv, cond_false] at hfind
        have hmem : club ∈ rest.map Prod.snd := List.mem_of_find?_eq_some hfind
        obtain ⟨p, hp, hpeq⟩ := List.mem_map.mp hmem
        have hid : club.id = p.1 := by
          rw [← hpeq]
          exact hids p (List.mem_cons_of_mem _ hp)
        have hkne : k ≠ club.id := by
          intro h
          apply hnd.1
          rw [h, hid]
          exact List.mem_map.mpr ⟨p, hp, rfl⟩
        rw [show aset ((k, v) :: rest) club.id c' = (k, v) :: aset rest club.id c' from by
          simp [aset, hkne]]
        simp only [List.map_cons, List.find?_cons, hv, cond_false]
        exact ih hnd.2 (fun p' hp' => hids p' (List.mem_cons_of_mem _ hp')) hfind

/-- Claim C5: for an existing user and club, `joinClub` succeeds and
writes both mirror sides with no duplicate entries; running it a second
time returns the very same store and still reports success; `leaveClub`
then clears both sides; and `joinClub` reports `NotFound` (`false`)
exactly when the user or the club does not exist. -/
theorem C5_join_leave_idempotent (st st1 st2 : Storage) (u c : String)
    (user : User) (club : Club)
    (hwf : ClubsWF st)
    (hu : getUser st u = some user)
    (hc : getClubByName st c = some club)
    (hj : st1 = (joinClub st u c).1)
    (hl : st2 = (leaveClub st1 u c).1) :
    (joinClub st u c).2 = true ∧
    (∃ u1, getUser st1 u = some u1 ∧ c ∈ u1.clubs ∧
      (user.clubs.Nodup → u1.clubs.Nodup)) ∧
    (∃ c1, getClubByName st1 c = some c1 ∧ u ∈ c1.members ∧
      (club.members.Nodup → c1.members.Nodup)) ∧
    joinClub st1 u c = (st1, true) ∧
    ((leaveClub st1 u c).2 = true ∧
      ¬userHasClub st2 u c ∧ ¬clubHasMember st2 c u) ∧
    (∀ (st' : Storage) (u' c' : String),
      (joinClub st' u' c').2 = false ↔
        (getUser st' u' = none ∨ getClubByName st' c' = none)) := by
  subst hj
  have hju : (joinClub st u c).1.users =
      (if c ∈ user.clubs then st.users
       else aset st.users u (applyPatch user { clubs := some (user.clubs ++ [c]) })) := by
    by_cases hcu : c ∈ user.clubs <;> by_cases hum : u ∈ club.members <;>
      simp [joinClub, hu, hc, hcu, hum, updateUser]
  have hjc : (joinClub st u c).1.clubs =
      (if u ∈ club.members then st.clubs
       else aset st.clubs club.id { club with members := club.members ++ [u] }) := by
    by_cases hcu : c ∈ user.clubs <;> by_cases hum : u ∈ club.members <;>
      simp [joinClub, hu, hc, hcu, hum, updateUser]
  -- the user side after joining
  have hB : ∃ u1, getUser (joinClub st u c).1 u = some u1 ∧ c ∈ u1.clubs ∧
      (user.clubs.Nodup → u1.clubs.Nodup) := by
    by_cases hcu : c ∈ user.clubs
    · refine ⟨user, ?_, hcu, fun h => h⟩
      rw [getUser, hju, if_pos hcu]
      exact hu
    · refine ⟨applyPatch user { clubs := some (user.clubs ++ [c]) }, ?_, ?_, ?_⟩
      · rw [getUser, hju, if_neg hcu]
        exact aget_aset_self _ _ _
      · simp [applyPatch]
      · intro h
        simp [applyPatch, List.nodup_append, h, hcu]
  -- the club side after joining
  have hC : ∃ c1, getClubByName (joinClub st u c).1 c = some c1 ∧ u ∈ c1.members ∧
      (club.members.Nodup → c1.members.Nodup) := by
    by_cases hum : u ∈ club.members
    · refine ⟨club, ?_, hum, fun h => h⟩
      rw [getClubByName, hjc, if_pos hum]
      exact hc
    · refine ⟨{ club with members := club.members ++ [u] }, ?_, ?_, ?_⟩
      · rw [getClubByName, hjc, if_neg hum]
        exact find_club_aset st.clubs club _ c hwf.1 hwf.2 hc rfl
      · simp
      · intro h
        simp [List.nodup_append, h, hum]
  -- well-formedness of the club map survives joining
  have hwf1 : ClubsWF (joinClub st u c).1 := by
    constructor
    · rw [hjc]
      by_cases hum : u ∈ club.members
      · rw [if_pos hum]
        exact hwf.1
      · rw [if_neg hum]
        exact keys_nodup_aset _ _ _ hwf.1
    · rw [hjc]
      by_cases hum : u ∈ club.members
      · rw [if_pos hum]
        exact hwf.2
      · rw [if_neg hum]
        intro p hp
        rcases mem_aset_cases _ _ _ _ hp with h | h
        · rw [h]
        · exact hwf.2 p h
  obtain ⟨u1, hu1, hcu1, hnd1⟩ := hB
  obtain ⟨c1, hc1, hum1, hnd2⟩ := hC
  refine ⟨by simp [joinClub, hu, hc], ⟨u1, hu1, hcu1, hnd1⟩, ⟨c1, hc1, hum1, hnd2⟩,
    ?_, ?_, ?_⟩
  · generalize hS : (joinClub st u c).1 = S at hu1 hc1 ⊢
    simp [joinClub, hu1, hc1, hcu1, hum1]
  · subst hl
    have hlu : (leaveClub (joinClub st u c).1 u c).1.users =
        aset (joinClub st u c).1.users u
          (applyPatch u1 { clubs := some (u1.clubs.filter (fun x => x ≠ c)) }) := by
      simp [leaveClub, hu1, hc1, updateUser]
    have hlc : (leaveClub (joinClub st u c).1 u c).1.clubs =
        aset (joinClub st u c).1.clubs c1.id
          { c1 with members := c1.members.filter (fun x => x ≠ u) } := by
      simp [leaveClub, hu1, hc1, updateUser]
    refine ⟨by simp [leaveClub, hu1, hc1], ?_, ?_⟩
    · rintro ⟨ux, hux, hmm⟩
      rw [getUser, hlu] at hux
      rw [aget_aset_self] at hux
      cases hux
      simp [applyPatch, List.mem_filter] at hmm
    · rintro ⟨cx, hcx, hmm⟩
      rw [getClubByName, hlc] at hcx
      rw [find_club_aset (joinClub st u c).1.clubs c1
        { c1 with members := c1.members.filter (fun x => x ≠ u) } c
        hwf1.1 hwf1.2 hc1 rfl] at hcx
      cases hcx
      simp [List.mem_filter] at hmm
  · intro st' u' c'
    rcases hgu : getUser st' u' with _ | ux <;>
      rcases hgc : getClubByName st' c' with _ | cx <;>
        simp [joinClub, hgu, hgc]

/-- Concrete instantiation of C5: joining the seeded Coding Club twice
from the sample store gives the same store as joining once, and still
succeeds. -/
theorem C5_join_leave_idempotent_witness :
    joinClub (joinClub sampleStorage "u1" "Coding Club").1 "u1" "Coding Club" =
      ((joinClub sampleStorage "u1" "Coding Club").1, true) :=
  (C5_join_leave_idempotent sampleStorage _ _ "u1" "Coding Club" sampleUser
    { id := "c1", name := "Coding Club",
      description := some "Programming and software development",
      category := "Technical", adminId := none, members := [], createdAt := 0 }
    (by decide) (by decide) (by decide) rfl rfl).2.2.2.1

/-- Claim C9: the verified-flow login answers 403 whenever the account is
unverified — for every password oracle, so regardless of whether the
password matches; 401 when the email is unknown or the comparison fails;
and otherwise the password-free user record together with a `{userId}`
session token signed for 7 days. -/
theorem C9_login_flow (st : Storage) (compare : String → String → Bool)
    (email password : String) :
    (getUserByEmail st email = none → login st compare email password = .unauthorized) ∧
    (∀ u, getUserByEmail st email = some u →
      (u.isVerified = false →
        ∀ cmp' : String → String → Bool, login st cmp' email password = .forbidden) ∧
      (u.isVerified = true → compare password u.password = false →
        login st compare email password = .unauthorized) ∧
      (u.isVerified = true → compare password u.password = true →
        login st compare email password =
          .ok (stripPassword u) { payload := .session u.id, expiresIn := "7d" })) := by
  refine ⟨?_, ?_⟩
  · intro h
    simp [login, h]
  · intro u hu
    refine ⟨?_, ?_, ?_⟩
    · intro hv cmp'
      simp [login, hu, hv]
    · intro hv hc
      simp [login, hu, hv, hc]
    · intro hv hc
      simp [login, hu, hv, hc]

/-- Concrete instantiation of C9: the verified user logs in with the
right password, the unverified user is refused with 403 even with the
right password, and an unknown email gets 401. -/
theorem C9_login_flow_witness :
    login sampleStorage sampleCompare "a@srec.ac.in" "pw" =
      .ok (stripPassword sampleUser)
        { payload := .session "u1", expiresIn := "7d" } ∧
    login sampleStorage sampleCompare "m@srec.ac.in" "pwh3pw" = .forbidden ∧
    login sampleStorage sampleCompare "nobody@srec.ac.in" "pw" = .unauthorized :=
  ⟨((C9_login_flow sampleStorage sampleCompare "a@srec.ac.in" "pw").2
      sampleUser (by decide)).2.2 rfl (by decide),
   ((C9_login_flow sampleStorage sampleCompare "m@srec.ac.in" "pwh3pw").2
      sampleUnverified (by decide)).1 rfl sampleCompare,
   (C9_login_flow sampleStorage sampleCompare "nobody@srec.ac.in" "pw").1 (by decide)⟩
